import Mathlib

/-!
Shallow embedding of `sktime/markov/tools/setup.py` and proofs about its
`configuration` function.

The Python file builds a `numpy.distutils` `Configuration` descriptor:
it registers eight subpackages by name and one native extension named
`kahandot`, whose include directory is `Path(top_path) / 'sktime' / 'src'
/ 'include'`.  The embedding models `pathlib.Path` construction (including
the `TypeError` raised by `Path(None)`), the descriptor object, the
sequence of registration events, and — for the frame/idempotence claims —
a heap of allocated descriptor objects through which the function is
threaded.
-/

namespace Sktime

/-- Python exception model: the only exception reachable from this file is
`TypeError`, raised by `pathlib.Path` when handed `None`. -/
inductive PyErr where
  | typeError (msg : String) : PyErr
deriving Repr, DecidableEq

/-- The message `pathlib` produces for `Path(None)`. -/
def pathTypeErrorMsg : String :=
  "argument should be a str or an os.PathLike object where __fspath__ returns a str, not NoneType"

/-- Model of a `pathlib.Path` value: the string the path was built from,
followed by the segments appended with the `/` operator. -/
structure PyPath where
  base : String
  segments : List String
deriving Repr, DecidableEq

/-- `Path(x)` applied to a possibly-`None` argument: `Path(None)` raises
`TypeError`; `Path(s)` for a string `s` succeeds. -/
def PyPath.ofPy : Option String → Except PyErr PyPath
  | none => Except.error (PyErr.typeError pathTypeErrorMsg)
  | some s => Except.ok ⟨s, []⟩

/-- The `/` operator of `pathlib.Path`, appending one segment. -/
def PyPath.div (p : PyPath) (seg : String) : PyPath :=
  ⟨p.base, p.segments ++ [seg]⟩

/-- A native extension record as registered by
`numpy.distutils.misc_util.Configuration.add_extension`: name, source
files, include directories and language. -/
structure Extension where
  name : String
  sources : List String
  include_dirs : List PyPath
  language : String
deriving Repr, DecidableEq

/-- The `numpy.distutils.misc_util.Configuration` descriptor, restricted
to the state this file touches: the package name, the two constructor
arguments, the registered subpackage names and the registered extensions. -/
structure Configuration where
  name : String
  parent_package : String
  top_path : Option String
  subpackages : List String
  ext_modules : List Extension
deriving Repr, DecidableEq

/-- `Configuration(name, parent_package, top_path)`: a fresh descriptor
with no subpackages and no extensions registered. -/
def Configuration.init (name parent_package : String) (top_path : Option String) :
    Configuration :=
  ⟨name, parent_package, top_path, [], []⟩

/-- `config.add_subpackage(n)`: appends `n` to the registered subpackage
names. -/
def Configuration.add_subpackage (c : Configuration) (n : String) : Configuration :=
  ⟨c.name, c.parent_package, c.top_path, c.subpackages ++ [n], c.ext_modules⟩

/-- `config.add_extension(...)`: appends the extension record to the
registered extensions. -/
def Configuration.add_ext (c : Configuration) (e : Extension) : Configuration :=
  ⟨c.name, c.parent_package, c.top_path, c.subpackages, c.ext_modules ++ [e]⟩

/-- One observable registration step performed by `configuration`. -/
inductive Event where
  | addSubpackage (name : String) : Event
  | addExtension (name : String) : Event
deriving Repr, DecidableEq

/-- A descriptor together with the trace of registration events performed
on it so far. -/
def addSubE (s : Configuration × List Event) (n : String) : Configuration × List Event :=
  (s.1.add_subpackage n, s.2 ++ [Event.addSubpackage n])

/-- Registration of an extension, traced. -/
def addExtE (s : Configuration × List Event) (e : Extension) : Configuration × List Event :=
  (s.1.add_ext e, s.2 ++ [Event.addExtension e.name])

/-- The `configuration` function of `sktime/markov/tools/setup.py`,
line by line.  The Python default arguments are `parent_package=''` and
`top_path=None`.  `Path(top_path)` is evaluated while building the
`add_extension` call, so a `None` `top_path` raises `TypeError` there and
the descriptor is never returned. -/
def configuration (parent_package : String) (top_path : Option String) :
    Except PyErr (Configuration × List Event) :=
  let s := (Configuration.init "tools" parent_package top_path, ([] : List Event))
  let s := addSubE s "analysis"
  let s := addSubE s "analysis.dense"
  let s := addSubE s "analysis.sparse"
  let s := addSubE s "estimation"
  let s := addSubE s "flux"
  let s := addSubE s "flux.dense"
  let s := addSubE s "flux.sparse"
  let s := addSubE s "generation"
  match PyPath.ofPy top_path with
  | Except.error e => Except.error e
  | Except.ok p =>
      let s := addExtE s ⟨"kahandot", ["kahandot/kahandot_module.cpp"],
                          [((p.div "sktime").div "src").div "include"], "c++"⟩
      Except.ok s

/-- The eight subpackage names registered, in source order. -/
def subNames : List String :=
  ["analysis", "analysis.dense", "analysis.sparse", "estimation",
   "flux", "flux.dense", "flux.sparse", "generation"]

/-- The extension record registered when `top_path` is the string `t`. -/
def kahandotExt (t : String) : Extension :=
  ⟨"kahandot", ["kahandot/kahandot_module.cpp"],
   [⟨t, ["sktime", "src", "include"]⟩], "c++"⟩

/-- The descriptor `configuration pp (some t)` returns. -/
def finalConfig (pp t : String) : Configuration :=
  ⟨"tools", pp, some t, subNames, [kahandotExt t]⟩

/-- The full registration trace of a successful call. -/
def fullTrace : List Event :=
  [Event.addSubpackage "analysis", Event.addSubpackage "analysis.dense",
   Event.addSubpackage "analysis.sparse", Event.addSubpackage "estimation",
   Event.addSubpackage "flux", Event.addSubpackage "flux.dense",
   Event.addSubpackage "flux.sparse", Event.addSubpackage "generation",
   Event.addExtension "kahandot"]

theorem configuration_some (pp t : String) :
    configuration pp (some t) = Except.ok (finalConfig pp t, fullTrace) := rfl

theorem configuration_none (pp : String) :
    configuration pp none = Except.error (PyErr.typeError pathTypeErrorMsg) := rfl

/-!
Heap-threaded version of `configuration`, used for the frame and
idempotence claims.  The heap is the list of `Configuration` objects
allocated so far; an address is an index into that list.  `configuration`
allocates one fresh object and performs every mutation through that
object's address, so the frame property (all previously allocated objects
are untouched) is a theorem about heap indexing, not a definition.
-/

/-- Allocate a fresh object at the end of the heap, returning its
address. -/
def heapAlloc (h : List Configuration) (c : Configuration) :
    Nat × List Configuration :=
  (h.length, h ++ [c])

/-- `add_subpackage` performed through the heap on the object at `addr`. -/
def heapAddSub (h : List Configuration) (addr : Nat) (n : String) :
    List Configuration :=
  match h[addr]? with
  | some c => h.set addr (c.add_subpackage n)
  | none => h

/-- `add_extension` performed through the heap on the object at `addr`. -/
def heapAddExt (h : List Configuration) (addr : Nat) (e : Extension) :
    List Configuration :=
  match h[addr]? with
  | some c => h.set addr (c.add_ext e)
  | none => h

/-- `configuration`, threaded through an explicit heap of descriptor
objects: it allocates one fresh `Configuration`, mutates it through its
address with the eight `add_subpackage` calls and the `add_extension`
call, and returns its address (or propagates the `TypeError` from
`Path(None)`). -/
def configurationH (h0 : List Configuration) (parent_package : String)
    (top_path : Option String) : Except PyErr Nat × List Configuration :=
  let a := heapAlloc h0 (Configuration.init "tools" parent_package top_path)
  let addr := a.1
  let h := a.2
  let h := heapAddSub h addr "analysis"
  let h := heapAddSub h addr "analysis.dense"
  let h := heapAddSub h addr "analysis.sparse"
  let h := heapAddSub h addr "estimation"
  let h := heapAddSub h addr "flux"
  let h := heapAddSub h addr "flux.dense"
  let h := heapAddSub h addr "flux.sparse"
  let h := heapAddSub h addr "generation"
  match PyPath.ofPy top_path with
  | Except.error e => (Except.error e, h)
  | Except.ok p =>
      let h := heapAddExt h addr ⟨"kahandot", ["kahandot/kahandot_module.cpp"],
                                  [((p.div "sktime").div "src").div "include"], "c++"⟩
      (Except.ok addr, h)

/-- The object left on the heap when `Path(None)` aborts the call: the
eight subpackages are registered, no extension is. -/
def cfgAfterSubs (pp : String) (tp : Option String) : Configuration :=
  ⟨"tools", pp, tp, subNames, []⟩

theorem get_concat (l : List Configuration) (c : Configuration) :
    (l ++ [c])[l.length]? = some c := by
  induction l with
  | nil => rfl
  | cons x xs ih => simp [ih]

theorem set_concat (l : List Configuration) (c c2 : Configuration) :
    (l ++ [c]).set l.length c2 = l ++ [c2] := by
  induction l with
  | nil => rfl
  | cons x xs ih => simp [ih]

theorem heapAddSub_concat (l : List Configuration) (c : Configuration) (n : String) :
    heapAddSub (l ++ [c]) l.length n = l ++ [c.add_subpackage n] := by
  simp [heapAddSub, get_concat, set_concat]

theorem heapAddExt_concat (l : List Configuration) (c : Configuration) (e : Extension) :
    heapAddExt (l ++ [c]) l.length e = l ++ [c.add_ext e] := by
  simp [heapAddExt, get_concat, set_concat]

theorem configurationH_some (h : List Configuration) (pp t : String) :
    configurationH h pp (some t) = (Except.ok h.length, h ++ [finalConfig pp t]) := by
  simp [configurationH, heapAlloc, heapAddSub_concat, heapAddExt_concat,
        PyPath.ofPy, PyPath.div, Configuration.init, Configuration.add_subpackage,
        Configuration.add_ext, finalConfig, kahandotExt, subNames]

theorem configurationH_none (h : List Configuration) (pp : String) :
    configurationH h pp none =
      (Except.error (PyErr.typeError pathTypeErrorMsg), h ++ [cfgAfterSubs pp none]) := by
  simp [configurationH, heapAlloc, heapAddSub_concat,
        PyPath.ofPy, Configuration.init, Configuration.add_subpackage,
        cfgAfterSubs, subNames]

/-- The descriptor a caller reads back from a heap-threaded call: the heap
cell at the returned address, or `none` when the call raised. -/
def returnedConfig (h : List Configuration) (pp : String) (tp : Option String) :
    Option Configuration :=
  match configurationH h pp tp with
  | (Except.ok addr, h2) => h2[addr]?
  | (Except.error _, _) => none

theorem get_concat2 (l : List Configuration) (a b : Configuration)
    (hb : l.length + 1 < (l ++ [a, b]).length) :
    (l ++ [a, b])[l.length + 1] = b := by
  induction l with
  | nil => rfl
  | cons x xs ih => simpa using ih (by simp)

theorem get_append_left (l l2 : List Configuration) (i : Nat) (hi : i < l.length) :
    (l ++ l2)[i]? = l[i]? := by
  induction l generalizing i with
  | nil => exact absurd hi (Nat.not_lt_zero i)
  | cons x xs ih =>
      cases i with
      | zero => simp
      | succ j => simpa using ih j (by simpa using hi)

/-- An unrelated, previously allocated descriptor, used to instantiate the
frame theorem. -/
def cDummy : Configuration := Configuration.init "other" "pkg" none

/-- C1: for every pair of inputs on which `configuration` returns, the
subpackage names registered on the returned descriptor are exactly
analysis, analysis.dense, analysis.sparse, estimation, flux, flux.dense,
flux.sparse, generation — four top-level groups with their nested
subpackages, and nothing else. -/
theorem claim_subpackage_set (pp : String) (tp : Option String)
    (c : Configuration) (evs : List Event)
    (h : configuration pp tp = Except.ok (c, evs)) :
    c.subpackages = ["analysis", "analysis.dense", "analysis.sparse", "estimation",
                     "flux", "flux.dense", "flux.sparse", "generation"] := by
  cases tp with
  | none => rw [configuration_none] at h; exact Except.noConfusion h
  | some t =>
      rw [configuration_some] at h
      injection h with h
      injection h with hc he
      subst hc
      rfl

theorem claim_subpackage_set_app :
    (finalConfig "" "/project").subpackages =
      ["analysis", "analysis.dense", "analysis.sparse", "estimation",
       "flux", "flux.dense", "flux.sparse", "generation"] :=
  claim_subpackage_set "" (some "/project") (finalConfig "" "/project") fullTrace rfl

/-- C2: for every `top_path` on which `configuration` returns, the
include-directory list registered for the (single) extension is exactly
the path obtained by joining the supplied `top_path` with the fixed
segments sktime, src, include; it depends on no other input. -/
theorem claim_include_dir (pp t : String) (c : Configuration) (evs : List Event)
    (h : configuration pp (some t) = Except.ok (c, evs)) :
    c.ext_modules.map Extension.include_dirs =
      [[⟨t, ["sktime", "src", "include"]⟩]] := by
  rw [configuration_some] at h
  injection h with h
  injection h with hc he
  subst hc
  rfl

theorem claim_include_dir_app :
    (finalConfig "pkg" "/base").ext_modules.map Extension.include_dirs =
      [[⟨"/base", ["sktime", "src", "include"]⟩]] :=
  claim_include_dir "pkg" "/base" (finalConfig "pkg" "/base") fullTrace rfl

/-- C3: for every pair of inputs on which `configuration` returns, the
declared extension has a source list with exactly one entry, the fixed
path kahandot/kahandot_module.cpp. -/
theorem claim_sources_single (pp : String) (tp : Option String)
    (c : Configuration) (evs : List Event)
    (h : configuration pp tp = Except.ok (c, evs)) :
    c.ext_modules.map Extension.sources = [["kahandot/kahandot_module.cpp"]] := by
  cases tp with
  | none => rw [configuration_none] at h; exact Except.noConfusion h
  | some t =>
      rw [configuration_some] at h
      injection h with h
      injection h with hc he
      subst hc
      rfl

theorem claim_sources_single_app :
    (finalConfig "par" "/top").ext_modules.map Extension.sources =
      [["kahandot/kahandot_module.cpp"]] :=
  claim_sources_single "par" (some "/top") (finalConfig "par" "/top") fullTrace rfl

/-- C4, counterexample: the claim that no call path of `configuration`
itself raises an error for a missing `top_path` is false — on the concrete
input `parent_package = ''`, `top_path = None` (the defaults), the call
raises a `TypeError` from `Path(top_path)` inside the function. -/
theorem claim_no_validation_cex :
    configuration "" none = Except.error (PyErr.typeError pathTypeErrorMsg) := rfl

/-- C4, amended: `configuration` performs no validation of its two inputs;
for every supplied string `top_path` (including the empty string) it
returns without raising, delegating all build failures to the external
build library — but when `top_path` is missing (`None`), the expression
`Path(top_path)` inside `configuration` itself raises a `TypeError`. -/
theorem claim_no_validation_amended :
    (∀ pp t : String, ∃ r, configuration pp (some t) = Except.ok r) ∧
    (∀ pp : String, configuration pp none =
        Except.error (PyErr.typeError pathTypeErrorMsg)) :=
  ⟨fun pp t => ⟨(finalConfig pp t, fullTrace), rfl⟩, fun _ => rfl⟩

/-- C5: for every pair of inputs on which `configuration` returns, exactly
one native extension is registered; it is named kahandot and its language
is c++. -/
theorem claim_single_extension (pp : String) (tp : Option String)
    (c : Configuration) (evs : List Event)
    (h : configuration pp tp = Except.ok (c, evs)) :
    c.ext_modules.length = 1 ∧
    c.ext_modules.map Extension.name = ["kahandot"] ∧
    c.ext_modules.map Extension.language = ["c++"] := by
  cases tp with
  | none => rw [configuration_none] at h; exact Except.noConfusion h
  | some t =>
      rw [configuration_some] at h
      injection h with h
      injection h with hc he
      subst hc
      exact ⟨rfl, rfl, rfl⟩

theorem claim_single_extension_app :
    (finalConfig "x" "/p").ext_modules.length = 1 ∧
    (finalConfig "x" "/p").ext_modules.map Extension.name = ["kahandot"] ∧
    (finalConfig "x" "/p").ext_modules.map Extension.language = ["c++"] :=
  claim_single_extension "x" (some "/p") (finalConfig "x" "/p") fullTrace rfl

/-- C6: `configuration` is idempotent — running the heap-threaded call a
second time with the same inputs, on the heap left by the first call,
yields a structurally identical descriptor (same subpackage names,
extension name, sources, include directories and language, since the
descriptors are equal as values). -/
theorem claim_idempotent (h : List Configuration) (pp : String) (tp : Option String) :
    returnedConfig ((configurationH h pp tp).2) pp tp = returnedConfig h pp tp := by
  cases tp with
  | none => simp [returnedConfig, configurationH_none]
  | some t => simp [returnedConfig, configurationH_some, get_concat, get_concat2]

/-- C7: `configuration` is side-effect-free apart from the descriptor it
builds — the heap-threaded call adds exactly one fresh `Configuration`
object and leaves every previously allocated object untouched. -/
theorem claim_frame (h : List Configuration) (pp : String) (tp : Option String)
    (i : Nat) (hi : i < h.length) :
    (configurationH h pp tp).2.length = h.length + 1 ∧
    ((configurationH h pp tp).2)[i]? = h[i]? := by
  cases tp with
  | none =>
      rw [configurationH_none]
      exact ⟨by simp, get_append_left h [cfgAfterSubs pp none] i hi⟩
  | some t =>
      rw [configurationH_some]
      exact ⟨by simp, get_append_left h [finalConfig pp t] i hi⟩

theorem claim_frame_app :
    0 < [cDummy].length ∧
    ((configurationH [cDummy] "" (some "/project")).2.length = [cDummy].length + 1 ∧
     ((configurationH [cDummy] "" (some "/project")).2)[0]? = [cDummy][0]?) :=
  ⟨by decide, claim_frame [cDummy] "" (some "/project") 0 (by decide)⟩

/-- C8: called with its default `top_path = None`, `configuration` raises
a `TypeError` from `Path(top_path)` before any descriptor is returned, for
every `parent_package`; the default value of `top_path` is unusable for
extension registration. -/
theorem claim_default_typeerror (pp : String) :
    configuration pp none = Except.error (PyErr.typeError pathTypeErrorMsg) := rfl

/-- C9: on every pair of inputs on which `configuration` returns, the
registrations happen in the fixed order analysis, analysis.dense,
analysis.sparse, estimation, flux, flux.dense, flux.sparse, generation,
with the single extension registration after all eight subpackage
registrations. -/
theorem claim_event_order (pp : String) (tp : Option String)
    (c : Configuration) (evs : List Event)
    (h : configuration pp tp = Except.ok (c, evs)) :
    evs = [Event.addSubpackage "analysis", Event.addSubpackage "analysis.dense",
           Event.addSubpackage "analysis.sparse", Event.addSubpackage "estimation",
           Event.addSubpackage "flux", Event.addSubpackage "flux.dense",
           Event.addSubpackage "flux.sparse", Event.addSubpackage "generation",
           Event.addExtension "kahandot"] := by
  cases tp with
  | none => rw [configuration_none] at h; exact Except.noConfusion h
  | some t =>
      rw [configuration_some] at h
      injection h with h
      injection h with hc he
      subst he
      rfl

theorem claim_event_order_app :
    fullTrace = [Event.addSubpackage "analysis", Event.addSubpackage "analysis.dense",
                 Event.addSubpackage "analysis.sparse", Event.addSubpackage "estimation",
                 Event.addSubpackage "flux", Event.addSubpackage "flux.dense",
                 Event.addSubpackage "flux.sparse", Event.addSubpackage "generation",
                 Event.addExtension "kahandot"] :=
  claim_event_order "p" (some "/q") (finalConfig "p" "/q") fullTrace rfl

/-- C10: `parent_package` does not interfere with the extension
declaration — two returning calls with the same `top_path` register equal
extension lists (same name, sources, include directories, language), and
the two descriptors differ at most in their `parent_package` field. -/
theorem claim_parent_noninterference (pp1 pp2 : String) (tp : Option String)
    (c1 c2 : Configuration) (e1 e2 : List Event)
    (h1 : configuration pp1 tp = Except.ok (c1, e1))
    (h2 : configuration pp2 tp = Except.ok (c2, e2)) :
    c1.ext_modules = c2.ext_modules ∧
    c1.parent_package = pp1 ∧ c2.parent_package = pp2 ∧
    (⟨c1.name, pp2, c1.top_path, c1.subpackages, c1.ext_modules⟩ : Configuration) = c2 := by
  cases tp with
  | none => rw [configuration_none] at h1; exact Except.noConfusion h1
  | some t =>
      rw [configuration_some] at h1
      rw [configuration_some] at h2
      injection h1 with h1
      injection h1 with hc1 he1
      injection h2 with h2
      injection h2 with hc2 he2
      subst hc1
      subst hc2
      exact ⟨rfl, rfl, rfl, rfl⟩

theorem claim_parent_noninterference_app :
    (finalConfig "a" "/t").ext_modules = (finalConfig "b" "/t").ext_modules ∧
    (finalConfig "a" "/t").parent_package = "a" ∧
    (finalConfig "b" "/t").parent_package = "b" ∧
    (⟨(finalConfig "a" "/t").name, "b", (finalConfig "a" "/t").top_path,
      (finalConfig "a" "/t").subpackages, (finalConfig "a" "/t").ext_modules⟩ :
      Configuration) = finalConfig "b" "/t" :=
  claim_parent_noninterference "a" "b" (some "/t")
    (finalConfig "a" "/t") (finalConfig "b" "/t") fullTrace fullTrace rfl rfl

end Sktime
